import Mathlib

/-!
Shallow embedding of the TimeTuner CP-SAT timetable solver core
(`app/solver/engine.py`, `app/solver/constraints/hard.py`,
`app/solver/constraints/soft.py`, `app/models/request.py`,
`app/models/response.py`).

Conventions of the embedding:
* Python strings stay `String`; the `DayEnum` / `RoomType` enum members are
  represented by their `.value` strings (`"Mon"`, `"lab"`, ...), which is the
  form in which the engine consumes them.
* The CP-SAT boolean decision variables `solver.x` form a dict keyed by the
  6-tuple `(batch_id, subject_id, day, slot, room_id, faculty_id)`; we embed
  the dict as the list of keys in insertion order (`createVariables`), with
  duplicate keys collapsed (`varKeys`) as a Python dict would collapse them.
* A candidate solution returned by the opaque solving backend is an
  assignment `σ : VarKey → Bool`.  The constraints the engine posts to the
  model are embedded as decidable satisfaction predicates on `σ`; a solution
  the backend may legally return with status OPTIMAL or FEASIBLE is exactly
  an assignment satisfying every posted constraint.
* Python `float` scores are modelled over `ℚ` (the score arithmetic involves
  only sums, one division by 1000, `max`, and comparisons).
* Fallible code is modelled with `Except String`; the `try/except` boundary
  of `TimetableSolver.solve` becomes an explicit handler.
-/

/-- `UnavailableSlot` from `app/models/request.py`: a blocked (day, slot). -/
structure UnavailableSlot where
  day : String
  slot : Nat
deriving DecidableEq, Repr

/-- `FacultyInput` from `app/models/request.py` (fields the solver core
reads; `department_id`, `max_daily_classes`, `max_weekly_classes` and
`preferences` are never read by the engine or the constraint encoders). -/
structure FacultyInput where
  id : String
  name : String
  subject_ids : List String
  unavailable_slots : List UnavailableSlot
deriving DecidableEq, Repr

/-- `RoomInput` from `app/models/request.py` (fields the solver core reads).
`type` holds the `RoomType` enum value string: `"lecture"`, `"lab"` or
`"seminar"`. -/
structure RoomInput where
  id : String
  code : String
  capacity : Nat
  type : String
deriving DecidableEq, Repr

/-- `SubjectInput` from `app/models/request.py` (fields the solver core
reads). -/
structure SubjectInput where
  id : String
  code : String
  is_lab : Bool
deriving DecidableEq, Repr

/-- `BatchSubject` from `app/models/request.py`: one (subject,
classes-per-week, optional pinned faculty) requirement of a batch. -/
structure BatchSubject where
  subject_id : String
  classes_per_week : Nat
  assigned_faculty_id : Option String
deriving DecidableEq, Repr

/-- `BatchInput` from `app/models/request.py` (fields the solver core
reads). -/
structure BatchInput where
  id : String
  code : String
  size : Nat
  subjects : List BatchSubject
deriving DecidableEq, Repr

/-- `FixedSlotInput` from `app/models/request.py`. -/
structure FixedSlotInput where
  batch_id : String
  subject_id : String
  faculty_id : Option String
  room_id : Option String
  day : String
  slot : Nat
deriving DecidableEq, Repr

/-- `SoftConstraintConfig` from `app/models/request.py`. -/
structure SoftConstraintConfig where
  enabled : Bool
  weight : Nat
deriving DecidableEq, Repr

/-- `SoftConstraints` from `app/models/request.py`, restricted to the five
preferences `_add_soft_constraints` actually wires to an encoder
(`room_utilization` and `preferred_slot_matching` are configured but never
consulted by the engine). -/
structure SoftConstraints where
  faculty_load_balance : SoftConstraintConfig
  avoid_consecutive_for_faculty : SoftConstraintConfig
  student_daily_load_limit : SoftConstraintConfig
  even_distribution : SoftConstraintConfig
  minimize_idle_gaps : SoftConstraintConfig
deriving DecidableEq, Repr

/-- `HardConstraints` from `app/models/request.py` (the only field the
constraint encoders read is `max_classes_per_day_batch`). -/
structure HardConstraints where
  max_classes_per_day_batch : Nat
deriving DecidableEq, Repr

/-- `Constraints` from `app/models/request.py`. -/
structure Constraints where
  hard : HardConstraints
  soft : SoftConstraints
deriving DecidableEq, Repr

/-- `SolverRequest` from `app/models/request.py` (fields the solver core
reads; `time_slots` and `config` only tune the backend, not the model). -/
structure SolverRequest where
  faculties : List FacultyInput
  rooms : List RoomInput
  subjects : List SubjectInput
  batches : List BatchInput
  days : List String
  slots_per_day : Nat
  constraints : Constraints
  fixed_slots : List FixedSlotInput
deriving DecidableEq, Repr

/-- Key of a decision variable in `solver.x`:
`(batch_id, subject_id, day, slot, room_id, faculty_id)`. -/
structure VarKey where
  batch_id : String
  subject_id : String
  day : String
  slot : Nat
  room_id : String
  faculty_id : String
deriving DecidableEq, Repr

namespace TimeTuner

/-- `TimetableSolver._get_faculty`. -/
def getFaculty (req : SolverRequest) (faculty_id : String) : Option FacultyInput :=
  req.faculties.find? (fun f => f.id == faculty_id)

/-- `TimetableSolver._get_room`. -/
def getRoom (req : SolverRequest) (room_id : String) : Option RoomInput :=
  req.rooms.find? (fun r => r.id == room_id)

/-- `TimetableSolver._get_subject`. -/
def getSubject (req : SolverRequest) (subject_id : String) : Option SubjectInput :=
  req.subjects.find? (fun s => s.id == subject_id)

/-- `TimetableSolver._get_batch`. -/
def getBatch (req : SolverRequest) (batch_id : String) : Option BatchInput :=
  req.batches.find? (fun b => b.id == batch_id)

/-- `TimetableSolver._get_qualified_faculties`: the pinned faculty when the
requirement assigns one (empty if the id resolves to nothing), otherwise
every faculty whose `subject_ids` contain the subject. -/
def getQualifiedFaculties (req : SolverRequest) (subject_id : String)
    (assigned_id : Option String) : List FacultyInput :=
  match assigned_id with
  | some aid =>
      match getFaculty req aid with
      | some f => [f]
      | none => []
  | none => req.faculties.filter (fun f => f.subject_ids.contains subject_id)

/-- `TimetableSolver._get_suitable_rooms`: rooms whose capacity covers the
batch size, excluding non-lab rooms when the subject is a lab subject. -/
def getSuitableRooms (req : SolverRequest) (batch : BatchInput)
    (subject : SubjectInput) : List RoomInput :=
  req.rooms.filter (fun room =>
    room.capacity ≥ batch.size && !(subject.is_lab && room.type != "lab"))

/-- The 1-based slot range `range(1, slots_per_day + 1)` used throughout the
engine and the constraint encoders. -/
def slotRange (slots_per_day : Nat) : List Nat :=
  (List.range slots_per_day).map (· + 1)

/-- `TimetableSolver._create_variables`: the insertion sequence of keys of
`solver.x`.  For each batch requirement whose subject resolves and whose
qualified-faculty and suitable-room sets are both nonempty, one key per
(day, slot, room, faculty) combination. -/
def createVariables (req : SolverRequest) : List VarKey :=
  req.batches.flatMap fun batch =>
    batch.subjects.flatMap fun batch_subject =>
      match getSubject req batch_subject.subject_id with
      | none => []
      | some subject =>
          let qualified_faculties :=
            getQualifiedFaculties req subject.id batch_subject.assigned_faculty_id
          let suitable_rooms := getSuitableRooms req batch subject
          if qualified_faculties.isEmpty || suitable_rooms.isEmpty then []
          else
            req.days.flatMap fun day =>
              (slotRange req.slots_per_day).flatMap fun slot =>
                suitable_rooms.flatMap fun room =>
                  qualified_faculties.map fun faculty =>
                    ⟨batch.id, subject.id, day, slot, room.id, faculty.id⟩

/-- The key set of the dict `solver.x`: duplicate insertions of the same
6-tuple collapse to a single dict entry. -/
def varKeys (req : SolverRequest) : List VarKey :=
  (createVariables req).dedup

/-- Number of decision variables an assignment sets to 1 among `keys`. -/
def trueCount (σ : VarKey → Bool) (keys : List VarKey) : Nat :=
  (keys.filter σ).length

/-- `add_one_class_per_batch_slot` (`constraints/hard.py`): for every batch
and (day, slot), the variables of that batch at that slot sum to at most 1.
(The encoder skips the constraint when no variable matches; an empty sum is
at most 1 anyway, so satisfaction is unchanged.) -/
def batchSlotSat (req : SolverRequest) (σ : VarKey → Bool) : Bool :=
  req.batches.all fun batch =>
    req.days.all fun day =>
      (slotRange req.slots_per_day).all fun slot =>
        trueCount σ ((varKeys req).filter fun k =>
          k.batch_id == batch.id && k.day == day && k.slot == slot) ≤ 1

/-- `add_one_class_per_room_slot` (`constraints/hard.py`): for every room
and (day, slot), the variables using that room at that slot sum to at
most 1. -/
def roomSlotSat (req : SolverRequest) (σ : VarKey → Bool) : Bool :=
  req.rooms.all fun room =>
    req.days.all fun day =>
      (slotRange req.slots_per_day).all fun slot =>
        trueCount σ ((varKeys req).filter fun k =>
          k.room_id == room.id && k.day == day && k.slot == slot) ≤ 1

/-- `add_one_class_per_faculty_slot` (`constraints/hard.py`): for every
faculty and (day, slot), the variables using that faculty at that slot sum
to at most 1. -/
def facultySlotSat (req : SolverRequest) (σ : VarKey → Bool) : Bool :=
  req.faculties.all fun faculty =>
    req.days.all fun day =>
      (slotRange req.slots_per_day).all fun slot =>
        trueCount σ ((varKeys req).filter fun k =>
          k.faculty_id == faculty.id && k.day == day && k.slot == slot) ≤ 1

/-- `add_classes_per_week_requirement` (`constraints/hard.py`): for every
(batch, subject) requirement, the variables sharing that (batch, subject)
sum to exactly `classes_per_week` — but, exactly as in the source, only when
at least one such variable exists (`if subject_vars:`); a requirement with
no variables gets no constraint. -/
def classesPerWeekSat (req : SolverRequest) (σ : VarKey → Bool) : Bool :=
  req.batches.all fun batch =>
    batch.subjects.all fun batch_subject =>
      let subject_vars := (varKeys req).filter fun k =>
        k.batch_id == batch.id && k.subject_id == batch_subject.subject_id
      subject_vars.isEmpty ||
        (trueCount σ subject_vars == batch_subject.classes_per_week)

/-- `add_faculty_unavailability` (`constraints/hard.py`): every variable of
a faculty at one of its declared unavailable (day, slot) pairs is forced
to 0. -/
def facultyUnavailSat (req : SolverRequest) (σ : VarKey → Bool) : Bool :=
  req.faculties.all fun faculty =>
    faculty.unavailable_slots.all fun unavailable =>
      ((varKeys req).filter fun k =>
        k.faculty_id == faculty.id && k.day == unavailable.day &&
          k.slot == unavailable.slot).all fun k => σ k == false

/-- The value `add_fixed_slots` (`constraints/hard.py`) forces on a variable
whose key matches a fixed slot's (batch, subject, day, slot): `false` when
the fixed slot pins a faculty and the key's faculty differs, else `false`
when it pins a room and the key's room differs, else `true` — the exact
`if / elif / else` chain of the source. -/
def fixedForcedValue (fixed : FixedSlotInput) (k : VarKey) : Bool :=
  match fixed.faculty_id with
  | some fid =>
      if k.faculty_id != fid then false
      else
        match fixed.room_id with
        | some rid => if k.room_id != rid then false else true
        | none => true
  | none =>
      match fixed.room_id with
      | some rid => if k.room_id != rid then false else true
      | none => true

/-- `add_fixed_slots` (`constraints/hard.py`): every variable matching a
fixed slot's (batch, subject, day, slot) takes the forced value. -/
def fixedSlotsSat (req : SolverRequest) (σ : VarKey → Bool) : Bool :=
  req.fixed_slots.all fun fixed =>
    ((varKeys req).filter fun k =>
      k.batch_id == fixed.batch_id && k.subject_id == fixed.subject_id &&
        k.day == fixed.day && k.slot == fixed.slot).all fun k =>
      σ k == fixedForcedValue fixed k

/-- `add_max_daily_classes_per_batch` (`constraints/hard.py`): for each
batch and day, its variables on that day sum to at most
`max_classes_per_day_batch`. -/
def maxDailySat (req : SolverRequest) (σ : VarKey → Bool) : Bool :=
  req.batches.all fun batch =>
    req.days.all fun day =>
      trueCount σ ((varKeys req).filter fun k =>
        k.batch_id == batch.id && k.day == day) ≤
        req.constraints.hard.max_classes_per_day_batch

/-- Conjunction of every hard constraint `_add_hard_constraints` posts to
the model.  An assignment the backend may return with status OPTIMAL or
FEASIBLE satisfies this predicate. -/
def hardSat (req : SolverRequest) (σ : VarKey → Bool) : Bool :=
  batchSlotSat req σ && roomSlotSat req σ && facultySlotSat req σ &&
    classesPerWeekSat req σ && facultyUnavailSat req σ &&
    fixedSlotsSat req σ && maxDailySat req σ

/-- Realized objective contribution of the `faculty_balance` penalty cluster
(`add_faculty_load_balance` in `constraints/soft.py`) under assignment `σ`:
for each faculty and day, the candidate variables of that faculty on that
day are listed in dict order and every variable from list position
`max_preferred = 3` onwards contributes `weight` when true (its penalty var
is forced to `weight` when the variable holds and to 0 otherwise). -/
def facultyLoadBalancePenalty (req : SolverRequest) (σ : VarKey → Bool)
    (weight : Nat) : Nat :=
  (req.faculties.map fun faculty =>
    (req.days.map fun day =>
      let day_vars := (varKeys req).filter fun k =>
        k.faculty_id == faculty.id && k.day == day
      weight * ((day_vars.drop 3).filter σ).length).sum).sum

/-- Number of true classes of a faculty on a day under `σ` (the quantity the
spec's load-balance sentence is about). -/
def facultyDayTrueClasses (req : SolverRequest) (σ : VarKey → Bool)
    (faculty_id day : String) : Nat :=
  trueCount σ ((varKeys req).filter fun k =>
    k.faculty_id == faculty_id && k.day == day)

/-- Whether the dict `solver.penalties` is nonempty (hence truthy) after
`_add_soft_constraints`: each of the five wired encoders is called exactly
when its preference is enabled, and each inserts its cluster key
unconditionally on entry, so the dict is truthy iff some wired preference is
enabled. -/
def penaltiesDictNonempty (soft : SoftConstraints) : Bool :=
  soft.faculty_load_balance.enabled ||
    soft.avoid_consecutive_for_faculty.enabled ||
    soft.student_daily_load_limit.enabled ||
    soft.even_distribution.enabled ||
    soft.minimize_idle_gaps.enabled

/-- `TimetableSolver._calculate_score`: 1.0 when the penalties dict is empty
or the realized objective is 0, otherwise `max(0.0, 1.0 - objective/1000)`.
Modelled over `ℚ`. -/
def calculateScore (penaltiesNonempty : Bool) (objectiveValue : ℚ) : ℚ :=
  if penaltiesNonempty = false ∨ objectiveValue = 0 then 1
  else max 0 (1 - objectiveValue / 1000)

/-- `TimetableEvent` from `app/models/response.py` (fields
`_extract_solution` fills; `duration` and `is_fixed` keep their defaults). -/
structure TimetableEvent where
  day : String
  slot : Nat
  batch_id : String
  batch_code : String
  subject_id : String
  subject_code : String
  faculty_id : String
  faculty_name : String
  room_id : String
  room_code : String
deriving DecidableEq, Repr

/-- `TimetableMetrics` from `app/models/response.py`; every field defaults
to zero. -/
structure TimetableMetrics where
  faculty_load_variance : ℚ
  room_utilization_percent : ℚ
  avg_daily_classes_per_batch : ℚ
  faculty_idle_gaps : Nat
  classes_in_preferred_slots : Nat
deriving DecidableEq, Repr

/-- The all-default `TimetableMetrics()` value. -/
def defaultMetrics : TimetableMetrics :=
  ⟨0, 0, 0, 0, 0⟩

/-- `TimetableSolution` from `app/models/response.py` (the `violations`
dict is split into its two keys). -/
structure TimetableSolution where
  score : ℚ
  events : List TimetableEvent
  violations_hard : Nat
  violations_soft : Int
  metrics : TimetableMetrics
deriving DecidableEq, Repr

/-- Event materialization inside `TimetableSolver._extract_solution`: the
`TimetableEvent` built from one true decision variable, with the display
codes looked up leniently (blank when the id resolves to nothing). -/
def toEvent (req : SolverRequest) (k : VarKey) : TimetableEvent :=
  { day := k.day
    slot := k.slot
    batch_id := k.batch_id
    batch_code := match getBatch req k.batch_id with
                  | some b => b.code
                  | none => ""
    subject_id := k.subject_id
    subject_code := match getSubject req k.subject_id with
                    | some s => s.code
                    | none => ""
    faculty_id := k.faculty_id
    faculty_name := match getFaculty req k.faculty_id with
                    | some f => f.name
                    | none => ""
    room_id := k.room_id
    room_code := match getRoom req k.room_id with
                 | some r => r.code
                 | none => "" }

/-- The event-decoding loop of `TimetableSolver._extract_solution`: one
`TimetableEvent` per true decision variable. -/
def decodeEvents (req : SolverRequest) (σ : VarKey → Bool) : List TimetableEvent :=
  ((varKeys req).filter σ).map (toEvent req)

/-- `TimetableSolver._extract_solution`: events from the true variables, the
normalized score, violation counts `{"hard": 0, "soft": objective if the
penalties dict is truthy else 0}`, and an all-default metrics bundle. -/
def extractSolution (req : SolverRequest) (σ : VarKey → Bool)
    (objectiveValue : ℚ) : TimetableSolution :=
  { score := calculateScore (penaltiesDictNonempty req.constraints.soft) objectiveValue
    events := decodeEvents req σ
    violations_hard := 0
    violations_soft :=
      if penaltiesDictNonempty req.constraints.soft then ⌊objectiveValue⌋ else 0
    metrics := defaultMetrics }

/-- `SolverStatus` from `app/models/response.py`. -/
inductive SolverStatus where
  | pending
  | running
  | optimal
  | feasible
  | infeasible
  | timeout
  | error
deriving DecidableEq, Repr

/-- `SolverResponse` from `app/models/response.py` (fields the solve flow
sets; the wall-clock `solve_time_seconds` and the statistics dict are not
modelled). -/
structure SolverResponse where
  status : SolverStatus
  message : String
  solutions : List TimetableSolution
deriving DecidableEq, Repr

/-- Terminal outcome of the opaque CP-SAT backend call
(`self.solver.Solve(self.model)`): a status, and for OPTIMAL / FEASIBLE the
returned assignment together with the realized objective value. -/
inductive BackendResult where
  | optimal (σ : VarKey → Bool) (objectiveValue : ℚ)
  | feasible (σ : VarKey → Bool) (objectiveValue : ℚ)
  | infeasible
  | unknown
  | modelInvalid

/-- Exceptions possibly raised by each phase of the `try:` block of
`TimetableSolver.solve`, modelled as `Except` values: a `.error msg` stands
for that phase raising an exception whose `str` is `msg`.  The backend
phase either raises or returns a `BackendResult`. -/
structure PhaseOutcomes where
  buildIndexes : Except String Unit
  createVars : Except String Unit
  addHard : Except String Unit
  addSoft : Except String Unit
  buildObjective : Except String Unit
  configure : Except String Unit
  backend : Except String BackendResult

/-- The body of the `try:` block of `TimetableSolver.solve`: runs the build
phases in order, returns the empty-model error response without consulting
the backend when no decision variable was created, otherwise dispatches on
the backend's terminal status. -/
def solveBody (req : SolverRequest) (ph : PhaseOutcomes) :
    Except String SolverResponse :=
  match ph.buildIndexes with
  | Except.error e => Except.error e
  | Except.ok _ =>
  match ph.createVars with
  | Except.error e => Except.error e
  | Except.ok _ =>
  if (varKeys req).isEmpty then
    Except.ok { status := SolverStatus.error
                message := "No valid class assignments possible"
                solutions := [] }
  else
  match ph.addHard with
  | Except.error e => Except.error e
  | Except.ok _ =>
  match ph.addSoft with
  | Except.error e => Except.error e
  | Except.ok _ =>
  match ph.buildObjective with
  | Except.error e => Except.error e
  | Except.ok _ =>
  match ph.configure with
  | Except.error e => Except.error e
  | Except.ok _ =>
  match ph.backend with
  | Except.error e => Except.error e
  | Except.ok (BackendResult.optimal σ obj) =>
      Except.ok { status := SolverStatus.optimal
                  message := "Optimal solution found"
                  solutions := [extractSolution req σ obj] }
  | Except.ok (BackendResult.feasible σ obj) =>
      Except.ok { status := SolverStatus.feasible
                  message := "Feasible solution found (may not be optimal)"
                  solutions := [extractSolution req σ obj] }
  | Except.ok BackendResult.infeasible =>
      Except.ok { status := SolverStatus.infeasible
                  message := "No feasible solution exists with current constraints"
                  solutions := [] }
  | Except.ok BackendResult.unknown =>
      Except.ok { status := SolverStatus.timeout
                  message := "Solver returned UNKNOWN - check constraints"
                  solutions := [] }
  | Except.ok BackendResult.modelInvalid =>
      Except.ok { status := SolverStatus.timeout
                  message := "Solver returned MODEL_INVALID - check constraints"
                  solutions := [] }

/-- `TimetableSolver.solve`: the `try/except Exception` boundary — any
exception escaping the body is converted into an ERROR response carrying
`"Solver error: " ++ str(e)`. -/
def solve (req : SolverRequest) (ph : PhaseOutcomes) : SolverResponse :=
  match solveBody req ph with
  | Except.ok response => response
  | Except.error e =>
      { status := SolverStatus.error
        message := "Solver error: " ++ e
        solutions := [] }


/-! ### Concrete instances

Small concrete requests and assignments used to witness the theorems and to
exhibit counterexamples.  All of them are well-formed `SolverRequest` values
(field bounds as enforced by the pydantic models). -/

/-- A non-lab subject. -/
def exSubject1 : SubjectInput := ⟨"s1", "S1", false⟩

/-- A second non-lab subject, taught by nobody in the sample data. -/
def exSubject2 : SubjectInput := ⟨"s2", "S2", false⟩

/-- A faculty teaching exactly subject `s1`, always available. -/
def exFaculty1 : FacultyInput := ⟨"f1", "F1", ["s1"], []⟩

/-- A lecture room with capacity 30. -/
def exRoom1 : RoomInput := ⟨"r1", "R1", 30, "lecture"⟩

/-- Soft-constraint configuration with every preference disabled. -/
def exSoftOff : SoftConstraints :=
  ⟨⟨false, 5⟩, ⟨false, 5⟩, ⟨false, 7⟩, ⟨false, 4⟩, ⟨false, 10⟩⟩

/-- Soft-constraint configuration with every preference enabled. -/
def exSoftSample : SoftConstraints :=
  ⟨⟨true, 5⟩, ⟨true, 5⟩, ⟨true, 7⟩, ⟨true, 4⟩, ⟨true, 10⟩⟩

/-- Baseline request: one batch needing one class of `s1`, one faculty, one
room, one day with two slots.  Its variable space is
`[⟨b1,s1,Mon,1,r1,f1⟩, ⟨b1,s1,Mon,2,r1,f1⟩]`. -/
def exReqA : SolverRequest :=
  { faculties := [exFaculty1]
    rooms := [exRoom1]
    subjects := [exSubject1]
    batches := [⟨"b1", "B1", 25, [⟨"s1", 1, none⟩]⟩]
    days := ["Mon"]
    slots_per_day := 2
    constraints := ⟨⟨6⟩, exSoftOff⟩
    fixed_slots := [] }

/-- Assignment scheduling the single class in slot 1. -/
def exAssignA : VarKey → Bool := fun k => k.slot == 1

/-- The slot-1 decision-variable key of `exReqA`. -/
def exKeyA : VarKey := ⟨"b1", "s1", "Mon", 1, "r1", "f1"⟩

/-- Request whose batch requires `s1` (schedulable) and `s2` (no faculty
teaches `s2`, so the builder creates zero variables for that requirement and
the source adds no quota constraint for it). -/
def exReq1 : SolverRequest :=
  { faculties := [exFaculty1]
    rooms := [exRoom1]
    subjects := [exSubject1, exSubject2]
    batches := [⟨"b1", "B1", 25, [⟨"s1", 1, none⟩, ⟨"s2", 1, none⟩]⟩]
    days := ["Mon"]
    slots_per_day := 2
    constraints := ⟨⟨6⟩, exSoftOff⟩
    fixed_slots := [] }

/-- Assignment scheduling `s1` in slot 1 (and nothing else); it satisfies
every posted hard constraint of `exReq1`. -/
def exAssign1 : VarKey → Bool := fun k => k.slot == 1

/-- Request with a fixed slot pinning batch `b1`, subject `s1` at
(Mon, slot 1) with no faculty or room specified. -/
def exFixedB : FixedSlotInput := ⟨"b1", "s1", none, none, "Mon", 1⟩

/-- `exReqA` extended with the fixed slot `exFixedB`. -/
def exReqB : SolverRequest :=
  { faculties := [exFaculty1]
    rooms := [exRoom1]
    subjects := [exSubject1]
    batches := [⟨"b1", "B1", 25, [⟨"s1", 1, none⟩]⟩]
    days := ["Mon"]
    slots_per_day := 2
    constraints := ⟨⟨6⟩, exSoftOff⟩
    fixed_slots := [exFixedB] }

/-- Assignment scheduling the class at the fixed (Mon, slot 1). -/
def exAssignB : VarKey → Bool := fun k => k.slot == 1

/-- The decision-variable key matching the fixed slot of `exReqB`. -/
def exKeyB : VarKey := ⟨"b1", "s1", "Mon", 1, "r1", "f1"⟩

/-- Faculty teaching `s1`, unavailable at (Mon, slot 1). -/
def exFaculty4 : FacultyInput := ⟨"f1", "F1", ["s1"], [⟨"Mon", 1⟩]⟩

/-- Request whose only faculty is unavailable at (Mon, slot 1). -/
def exReq4 : SolverRequest :=
  { faculties := [exFaculty4]
    rooms := [exRoom1]
    subjects := [exSubject1]
    batches := [⟨"b1", "B1", 25, [⟨"s1", 1, none⟩]⟩]
    days := ["Mon"]
    slots_per_day := 2
    constraints := ⟨⟨6⟩, exSoftOff⟩
    fixed_slots := [] }

/-- The decision-variable key of `exReq4` sitting exactly at the declared
unavailable (faculty, day, slot) triple. -/
def exKey4 : VarKey := ⟨"b1", "s1", "Mon", 1, "r1", "f1"⟩

/-- Assignment scheduling the class at the available (Mon, slot 2). -/
def exAssign4 : VarKey → Bool := fun k => k.slot == 2

/-- The slot-2 key of `exReq4` (the scheduled class of `exAssign4`). -/
def exKey4b : VarKey := ⟨"b1", "s1", "Mon", 2, "r1", "f1"⟩

/-- Request with one day of four slots and the faculty-load-balance
preference enabled with weight 5; the single requirement needs one class per
week, so any solution has exactly one true class on the day. -/
def exReq5 : SolverRequest :=
  { faculties := [exFaculty1]
    rooms := [exRoom1]
    subjects := [exSubject1]
    batches := [⟨"b1", "B1", 25, [⟨"s1", 1, none⟩]⟩]
    days := ["Mon"]
    slots_per_day := 4
    constraints := ⟨⟨6⟩, ⟨⟨true, 5⟩, ⟨false, 5⟩, ⟨false, 7⟩, ⟨false, 4⟩, ⟨false, 10⟩⟩⟩
    fixed_slots := [] }

/-- Assignment scheduling the single class in slot 4 — the faculty then has
one class that day, yet that variable sits at position 3 of the candidate
list. -/
def exAssign5 : VarKey → Bool := fun k => k.slot == 4

/-- Request whose batch needs two classes of `s1` over two slots. -/
def exReq6 : SolverRequest :=
  { faculties := [exFaculty1]
    rooms := [exRoom1]
    subjects := [exSubject1]
    batches := [⟨"b1", "B1", 25, [⟨"s1", 2, none⟩]⟩]
    days := ["Mon"]
    slots_per_day := 2
    constraints := ⟨⟨6⟩, exSoftOff⟩
    fixed_slots := [] }

/-- Assignment scheduling both slots (the only solution of `exReq6`). -/
def exAssign6 : VarKey → Bool := fun _ => true

/-- Slot-1 key of `exReq6`. -/
def exKey6a : VarKey := ⟨"b1", "s1", "Mon", 1, "r1", "f1"⟩

/-- Slot-2 key of `exReq6`. -/
def exKey6b : VarKey := ⟨"b1", "s1", "Mon", 2, "r1", "f1"⟩

/-- Scenario A request: the single room's capacity (25) is below the batch
size (30), so no requirement has a suitable room and no variable is
created. -/
def exReq7 : SolverRequest :=
  { faculties := [exFaculty1]
    rooms := [⟨"r1", "R1", 25, "lecture"⟩]
    subjects := [exSubject1]
    batches := [⟨"b1", "B1", 30, [⟨"s1", 1, none⟩]⟩]
    days := ["Mon"]
    slots_per_day := 2
    constraints := ⟨⟨6⟩, exSoftOff⟩
    fixed_slots := [] }

/-- Phase outcomes where no phase raises and the backend reports
infeasible. -/
def exPhOk : PhaseOutcomes :=
  ⟨Except.ok (), Except.ok (), Except.ok (), Except.ok (), Except.ok (),
    Except.ok (), Except.ok BackendResult.infeasible⟩

/-- Phase outcomes where the backend invocation raises an exception. -/
def exPhFault : PhaseOutcomes :=
  ⟨Except.ok (), Except.ok (), Except.ok (), Except.ok (), Except.ok (),
    Except.ok (), Except.error "backend failure"⟩

/-- Phase outcomes where the backend returns OPTIMAL with assignment
`exAssignA` and objective value 0. -/
def exPhOpt : PhaseOutcomes :=
  ⟨Except.ok (), Except.ok (), Except.ok (), Except.ok (), Except.ok (),
    Except.ok (), Except.ok (BackendResult.optimal exAssignA 0)⟩


/-! ### Helper lemmas -/

theorem two_le_length_of_mem {α : Type} {a b : α} {l : List α}
    (ha : a ∈ l) (hb : b ∈ l) (hab : a ≠ b) : 2 ≤ l.length := by
  induction l with
  | nil => cases ha
  | cons x xs ih =>
      rcases List.mem_cons.mp ha with rfl | ha2
      · rcases List.mem_cons.mp hb with rfl | hb2
        · exact absurd rfl hab
        · have hpos : 0 < xs.length := List.length_pos_of_mem hb2
          simpa [List.length_cons] using Nat.succ_le_succ hpos
      · have hpos : 0 < xs.length := List.length_pos_of_mem ha2
        simpa [List.length_cons] using Nat.succ_le_succ hpos

theorem mem_varKeys_struct {req : SolverRequest} {k : VarKey} (hk : k ∈ varKeys req) :
    ∃ batch ∈ req.batches, ∃ bs ∈ batch.subjects, ∃ subject,
      getSubject req bs.subject_id = some subject ∧
      subject.id = bs.subject_id ∧
      k.batch_id = batch.id ∧ k.subject_id = subject.id ∧
      k.day ∈ req.days ∧ k.slot ∈ slotRange req.slots_per_day ∧
      (∃ room ∈ req.rooms, k.room_id = room.id ∧ batch.size ≤ room.capacity ∧
        (subject.is_lab = true → room.type = "lab")) ∧
      (∃ faculty ∈ req.faculties, k.faculty_id = faculty.id ∧
        (bs.assigned_faculty_id = some faculty.id ∨
         (bs.assigned_faculty_id = none ∧ subject.id ∈ faculty.subject_ids))) := by
  rw [varKeys, List.mem_dedup] at hk
  unfold createVariables at hk
  rw [List.mem_flatMap] at hk
  obtain ⟨batch, hbatch, hk⟩ := hk
  rw [List.mem_flatMap] at hk
  obtain ⟨bs, hbs, hk⟩ := hk
  cases hsub : getSubject req bs.subject_id with
  | none => rw [hsub] at hk; simp at hk
  | some subject =>
      rw [hsub] at hk
      dsimp only at hk
      split at hk
      · simp at hk
      · rw [List.mem_flatMap] at hk
        obtain ⟨day, hday, hk⟩ := hk
        rw [List.mem_flatMap] at hk
        obtain ⟨slot, hslot, hk⟩ := hk
        rw [List.mem_flatMap] at hk
        obtain ⟨room, hroom, hk⟩ := hk
        rw [List.mem_map] at hk
        obtain ⟨faculty, hfac, hkey⟩ := hk
        subst hkey
        have hsubid : subject.id = bs.subject_id := by
          have := List.find?_some hsub
          simpa using this
        refine ⟨batch, hbatch, bs, hbs, subject, hsub, hsubid, rfl, rfl, hday, hslot, ?_, ?_⟩
        · unfold getSuitableRooms at hroom
          rw [List.mem_filter] at hroom
          obtain ⟨hmem, hcond⟩ := hroom
          rw [Bool.and_eq_true] at hcond
          obtain ⟨hcap, hlab⟩ := hcond
          refine ⟨room, hmem, rfl, by simpa using hcap, ?_⟩
          intro hislab
          rw [hislab] at hlab
          simp at hlab
          exact hlab
        · unfold getQualifiedFaculties at hfac
          cases hassigned : bs.assigned_faculty_id with
          | some aid =>
              rw [hassigned] at hfac
              dsimp only at hfac
              cases hfind : getFaculty req aid with
              | none => rw [hfind] at hfac; simp at hfac
              | some f =>
                  rw [hfind] at hfac
                  simp only [List.mem_singleton] at hfac
                  subst hfac
                  have hfid : faculty.id = aid := by
                    have := List.find?_some hfind
                    simpa using this
                  exact ⟨faculty, List.mem_of_find?_eq_some hfind, rfl,
                    Or.inl (by rw [hfid])⟩
          | none =>
              rw [hassigned] at hfac
              dsimp only at hfac
              rw [List.mem_filter] at hfac
              obtain ⟨hmem, hteach⟩ := hfac
              exact ⟨faculty, hmem, rfl, Or.inr ⟨rfl, by simpa using hteach⟩⟩


theorem hardSat_parts {req : SolverRequest} {σ : VarKey → Bool}
    (h : hardSat req σ = true) :
    batchSlotSat req σ = true ∧ roomSlotSat req σ = true ∧
    facultySlotSat req σ = true ∧ classesPerWeekSat req σ = true ∧
    facultyUnavailSat req σ = true ∧ fixedSlotsSat req σ = true ∧
    maxDailySat req σ = true := by
  simp only [hardSat, Bool.and_eq_true] at h
  tauto

theorem not_two_true {σ : VarKey → Bool} {L : List VarKey} {k1 k2 : VarKey}
    (hcount : trueCount σ L ≤ 1) (h1 : k1 ∈ L) (h2 : k2 ∈ L)
    (hσ1 : σ k1 = true) (hσ2 : σ k2 = true) (hne : k1 ≠ k2) : False := by
  have h1f : k1 ∈ L.filter σ := List.mem_filter.mpr ⟨h1, hσ1⟩
  have h2f : k2 ∈ L.filter σ := List.mem_filter.mpr ⟨h2, hσ2⟩
  have := two_le_length_of_mem h1f h2f hne
  unfold trueCount at hcount
  omega

theorem mem_decodeEvents {req : SolverRequest} {σ : VarKey → Bool}
    {e : TimetableEvent} (he : e ∈ decodeEvents req σ) :
    ∃ k, k ∈ varKeys req ∧ σ k = true ∧ e = toEvent req k := by
  unfold decodeEvents at he
  rw [List.mem_map] at he
  obtain ⟨k, hk, hke⟩ := he
  rw [List.mem_filter] at hk
  exact ⟨k, hk.1, hk.2, hke.symm⟩

theorem length_filter_and_comm {α : Type} (p q : α → Bool) (l : List α) :
    (l.filter fun a => p a && q a).length = (l.filter fun a => q a && p a).length := by
  congr 1
  apply List.filter_congr
  intro a _
  exact Bool.and_comm (p a) (q a)

theorem solveBody_solutions {req : SolverRequest} {ph : PhaseOutcomes}
    {r : SolverResponse} (h : solveBody req ph = Except.ok r) :
    r.solutions = [] ∨
    ∃ σ obj, (r.status = SolverStatus.optimal ∨ r.status = SolverStatus.feasible) ∧
      r.solutions = [extractSolution req σ obj] := by
  cases hbi : ph.buildIndexes with
  | error e => simp [solveBody, hbi] at h
  | ok u =>
  cases hcv : ph.createVars with
  | error e => simp [solveBody, hbi, hcv] at h
  | ok u2 =>
  cases hie : (varKeys req).isEmpty with
  | true =>
      simp [solveBody, hbi, hcv, hie] at h
      left
      rw [← h]
  | false =>
  cases hah : ph.addHard with
  | error e => simp [solveBody, hbi, hcv, hie, hah] at h
  | ok u3 =>
  cases has : ph.addSoft with
  | error e => simp [solveBody, hbi, hcv, hie, hah, has] at h
  | ok u4 =>
  cases hbo : ph.buildObjective with
  | error e => simp [solveBody, hbi, hcv, hie, hah, has, hbo] at h
  | ok u5 =>
  cases hcf : ph.configure with
  | error e => simp [solveBody, hbi, hcv, hie, hah, has, hbo, hcf] at h
  | ok u6 =>
  cases hbk : ph.backend with
  | error e => simp [solveBody, hbi, hcv, hie, hah, has, hbo, hcf, hbk] at h
  | ok result =>
  cases result with
  | optimal σ obj =>
      simp [solveBody, hbi, hcv, hie, hah, has, hbo, hcf, hbk] at h
      right
      exact ⟨σ, obj, Or.inl (by rw [← h]), by rw [← h]⟩
  | feasible σ obj =>
      simp [solveBody, hbi, hcv, hie, hah, has, hbo, hcf, hbk] at h
      right
      exact ⟨σ, obj, Or.inr (by rw [← h]), by rw [← h]⟩
  | infeasible =>
      simp [solveBody, hbi, hcv, hie, hah, has, hbo, hcf, hbk] at h
      left
      rw [← h]
  | unknown =>
      simp [solveBody, hbi, hcv, hie, hah, has, hbo, hcf, hbk] at h
      left
      rw [← h]
  | modelInvalid =>
      simp [solveBody, hbi, hcv, hie, hah, has, hbo, hcf, hbk] at h
      left
      rw [← h]

/-! ### Claims -/

/-- C1 (counterexample): the claim "for every solution with status optimal
or feasible and every (batch, subject) requirement, the number of events
matching that requirement equals its `classes_per_week`" is false as stated:
in `exReq1`, no faculty teaches `s2`, so the builder creates no variable for
the (b1, s2) requirement and `add_classes_per_week_requirement` adds no
constraint for it; the assignment `exAssign1` satisfies every posted hard
constraint yet yields 0 events for (b1, s2) while `classes_per_week` is 1. -/
theorem c1_classes_per_week_counterexample :
    ¬ (∀ (req : SolverRequest) (σ : VarKey → Bool), hardSat req σ = true →
        ∀ batch ∈ req.batches, ∀ bs ∈ batch.subjects,
          ((decodeEvents req σ).filter fun e =>
            e.batch_id == batch.id && e.subject_id == bs.subject_id).length
            = bs.classes_per_week) := by
  intro hclaim
  have := hclaim exReq1 exAssign1 (by decide)
    ⟨"b1", "B1", 25, [⟨"s1", 1, none⟩, ⟨"s2", 1, none⟩]⟩ (by decide)
    ⟨"s2", 1, none⟩ (by decide)
  exact absurd this (by decide)

/-- C1 (amended): for every solution satisfying all posted hard constraints
and every (batch, subject) requirement for which at least one decision
variable exists, the number of timetable events whose `batch_id` and
`subject_id` match the requirement equals its configured
`classes_per_week`. -/
theorem c1_classes_per_week_amended (req : SolverRequest) (σ : VarKey → Bool)
    (batch : BatchInput) (bs : BatchSubject) (h : hardSat req σ = true)
    (hb : batch ∈ req.batches) (hbs : bs ∈ batch.subjects)
    (hvars : ((varKeys req).filter fun k =>
      k.batch_id == batch.id && k.subject_id == bs.subject_id) ≠ []) :
    ((decodeEvents req σ).filter fun e =>
      e.batch_id == batch.id && e.subject_id == bs.subject_id).length
      = bs.classes_per_week := by
  obtain ⟨-, -, -, hcpw, -, -, -⟩ := hardSat_parts h
  rw [classesPerWeekSat, List.all_eq_true] at hcpw
  have h1 := hcpw batch hb
  rw [List.all_eq_true] at h1
  have h2 := h1 bs hbs
  dsimp only at h2
  rw [Bool.or_eq_true] at h2
  rcases h2 with hemp | hcount
  · exact absurd (List.isEmpty_iff.mp hemp) hvars
  · have hcnt : trueCount σ ((varKeys req).filter fun k =>
        k.batch_id == batch.id && k.subject_id == bs.subject_id)
        = bs.classes_per_week := by simpa using hcount
    unfold decodeEvents
    rw [List.filter_map, List.length_map]
    have hcomp : ((fun e : TimetableEvent =>
        e.batch_id == batch.id && e.subject_id == bs.subject_id) ∘ toEvent req)
        = fun k : VarKey => k.batch_id == batch.id && k.subject_id == bs.subject_id := rfl
    rw [hcomp]
    rw [List.filter_filter]
    unfold trueCount at hcnt
    rw [List.filter_filter] at hcnt
    rw [← hcnt]
    exact length_filter_and_comm _ σ _

/-- C1 (witness): the amended theorem applied to `exReq1` and the
schedulable requirement (b1, s1). -/
theorem c1_classes_per_week_witness :
    hardSat exReq1 exAssign1 = true ∧
    ((varKeys exReq1).filter fun k =>
      k.batch_id == "b1" && k.subject_id == "s1") ≠ [] ∧
    ((decodeEvents exReq1 exAssign1).filter fun e =>
      e.batch_id == "b1" && e.subject_id == "s1").length = 1 :=
  ⟨by decide, by decide,
    c1_classes_per_week_amended exReq1 exAssign1
      ⟨"b1", "B1", 25, [⟨"s1", 1, none⟩, ⟨"s2", 1, none⟩]⟩ ⟨"s1", 1, none⟩
      (by decide) (by decide) (by decide) (by decide)⟩

/-- C2: for every fixed assignment and every decision variable at its
(batch, subject, day, slot): a variable whose faculty mismatches a pinned
faculty is forced to 0; a variable whose room mismatches a pinned room is
forced to 0; and a variable matching every pinned field (in particular
every variable at the quadruple when neither faculty nor room is pinned)
is forced to 1. -/
theorem c2_fixed_slot_forcing (req : SolverRequest) (σ : VarKey → Bool)
    (fixed : FixedSlotInput) (k : VarKey) (h : hardSat req σ = true)
    (hfix : fixed ∈ req.fixed_slots) (hk : k ∈ varKeys req)
    (hb : k.batch_id = fixed.batch_id) (hs : k.subject_id = fixed.subject_id)
    (hd : k.day = fixed.day) (hsl : k.slot = fixed.slot) :
    (∀ fid, fixed.faculty_id = some fid → k.faculty_id ≠ fid → σ k = false) ∧
    (∀ rid, fixed.room_id = some rid → k.room_id ≠ rid → σ k = false) ∧
    ((fixed.faculty_id = none ∨ fixed.faculty_id = some k.faculty_id) →
      (fixed.room_id = none ∨ fixed.room_id = some k.room_id) → σ k = true) := by
  obtain ⟨-, -, -, -, -, hfixedC, -⟩ := hardSat_parts h
  rw [fixedSlotsSat, List.all_eq_true] at hfixedC
  have h1 := hfixedC fixed hfix
  rw [List.all_eq_true] at h1
  have h2 := h1 k (List.mem_filter.mpr ⟨hk, by simp [hb, hs, hd, hsl]⟩)
  have hforced : σ k = fixedForcedValue fixed k := by simpa using h2
  refine ⟨?_, ?_, ?_⟩
  · intro fid hfid hne
    rw [hforced]
    unfold fixedForcedValue
    rw [hfid]
    simp [hne]
  · intro rid hrid hne
    rw [hforced]
    unfold fixedForcedValue
    cases hf : fixed.faculty_id with
    | none =>
        rw [hrid]
        simp [hne]
    | some fid =>
        by_cases hkf : k.faculty_id = fid
        · simp [hkf, hrid, hne]
        · simp [hkf]
  · intro hfac hroom
    rw [hforced]
    unfold fixedForcedValue
    rcases hfac with hf | hf
    · rw [hf]
      rcases hroom with hr | hr
      · rw [hr]
      · rw [hr]
        simp
    · rw [hf]
      rcases hroom with hr | hr
      · rw [hr]
        simp
      · rw [hr]
        simp
  
/-- C2 (witness): in `exReqB` the fixed slot pins (b1, s1, Mon, 1) with no
faculty or room; the matching variable is forced to 1. -/
theorem c2_fixed_slot_witness :
    hardSat exReqB exAssignB = true ∧ exAssignB exKeyB = true :=
  ⟨by decide,
    (c2_fixed_slot_forcing exReqB exAssignB exFixedB exKeyB (by decide) (by decide)
      (by decide) rfl rfl rfl rfl).2.2 (Or.inl rfl) (Or.inl rfl)⟩

/-- C3: the returned score is 1 when no penalty cluster exists or the
realized objective is 0, and `max 0 (1 - objective/1000)` otherwise; the
score always lies in [0, 1], and equals 1 whenever no soft preference is
enabled. -/
theorem c3_score_formula_bounds (soft : SoftConstraints) (obj : ℚ)
    (hobj : 0 ≤ obj) :
    calculateScore (penaltiesDictNonempty soft) obj
      = (if penaltiesDictNonempty soft = false ∨ obj = 0 then 1
         else max 0 (1 - obj / 1000)) ∧
    0 ≤ calculateScore (penaltiesDictNonempty soft) obj ∧
    calculateScore (penaltiesDictNonempty soft) obj ≤ 1 ∧
    (soft.faculty_load_balance.enabled = false →
      soft.avoid_consecutive_for_faculty.enabled = false →
      soft.student_daily_load_limit.enabled = false →
      soft.even_distribution.enabled = false →
      soft.minimize_idle_gaps.enabled = false →
      calculateScore (penaltiesDictNonempty soft) obj = 1) := by
  refine ⟨rfl, ?_, ?_, ?_⟩
  · unfold calculateScore
    split
    · exact zero_le_one
    · exact le_max_left 0 _
  · unfold calculateScore
    split
    · exact le_refl 1
    · refine max_le zero_le_one ?_
      have h1000 : 0 ≤ obj / 1000 := by positivity
      linarith
  · intro h1 h2 h3 h4 h5
    have hoff : penaltiesDictNonempty soft = false := by
      unfold penaltiesDictNonempty
      rw [h1, h2, h3, h4, h5]
      rfl
    rw [hoff]
    unfold calculateScore
    simp

/-- C3 (witness): the score theorem at the all-enabled configuration and
objective value 500 (realized score 1/2). -/
theorem c3_score_witness :
    0 ≤ (500 : ℚ) ∧
    (calculateScore (penaltiesDictNonempty exSoftSample) 500
        = (if penaltiesDictNonempty exSoftSample = false ∨ (500 : ℚ) = 0 then 1
           else max 0 (1 - 500 / 1000)) ∧
      0 ≤ calculateScore (penaltiesDictNonempty exSoftSample) 500 ∧
      calculateScore (penaltiesDictNonempty exSoftSample) 500 ≤ 1 ∧
      (exSoftSample.faculty_load_balance.enabled = false →
        exSoftSample.avoid_consecutive_for_faculty.enabled = false →
        exSoftSample.student_daily_load_limit.enabled = false →
        exSoftSample.even_distribution.enabled = false →
        exSoftSample.minimize_idle_gaps.enabled = false →
        calculateScore (penaltiesDictNonempty exSoftSample) 500 = 1)) :=
  ⟨by norm_num, c3_score_formula_bounds exSoftSample 500 (by norm_num)⟩

/-- C4 (counterexample): the claim "no decision variable exists in the
candidate space keyed by an instructor-unavailable (instructor, day, slot)"
is false: `_create_variables` enumerates every (day, slot) regardless of
faculty unavailability, so in `exReq4` (faculty `f1` unavailable at
(Mon, 1)) the key ⟨b1, s1, Mon, 1, r1, f1⟩ is in the candidate space. -/
theorem c4_unavailable_variable_counterexample :
    ¬ (∀ (req : SolverRequest), ∀ faculty ∈ req.faculties,
        ∀ u ∈ faculty.unavailable_slots, ∀ k ∈ varKeys req,
          ¬(k.faculty_id = faculty.id ∧ k.day = u.day ∧ k.slot = u.slot)) := by
  intro hclaim
  exact hclaim exReq4 exFaculty4 (by decide) ⟨"Mon", 1⟩ (by decide) exKey4
    (by decide) ⟨rfl, rfl, rfl⟩

/-- C4 (amended): the variable at an unavailable triple exists but is
constrained to 0 by `add_faculty_unavailability`, so in any solution
satisfying the posted hard constraints no event assigns an instructor to a
(day, slot) declared unavailable for that instructor. -/
theorem c4_unavailability_amended (req : SolverRequest) (σ : VarKey → Bool)
    (faculty : FacultyInput) (u : UnavailableSlot) (e : TimetableEvent)
    (h : hardSat req σ = true) (hf : faculty ∈ req.faculties)
    (hu : u ∈ faculty.unavailable_slots) (he : e ∈ decodeEvents req σ) :
    ¬(e.faculty_id = faculty.id ∧ e.day = u.day ∧ e.slot = u.slot) := by
  rintro ⟨hfid, hday, hslot⟩
  obtain ⟨-, -, -, -, hunav, -, -⟩ := hardSat_parts h
  obtain ⟨k, hk, hσ, hke⟩ := mem_decodeEvents he
  subst hke
  have hfid2 : k.faculty_id = faculty.id := hfid
  have hday2 : k.day = u.day := hday
  have hslot2 : k.slot = u.slot := hslot
  rw [facultyUnavailSat, List.all_eq_true] at hunav
  have h1 := hunav faculty hf
  rw [List.all_eq_true] at h1
  have h2 := h1 u hu
  rw [List.all_eq_true] at h2
  have h3 := h2 k (List.mem_filter.mpr ⟨hk, by simp [hfid2, hday2, hslot2]⟩)
  rw [hσ] at h3
  simp at h3

/-- C4 (witness): the amended theorem applied to `exReq4` with the class
scheduled at the available slot 2. -/
theorem c4_unavailability_witness :
    hardSat exReq4 exAssign4 = true ∧
    ¬((toEvent exReq4 exKey4b).faculty_id = exFaculty4.id ∧
      (toEvent exReq4 exKey4b).day = "Mon" ∧ (toEvent exReq4 exKey4b).slot = 1) :=
  ⟨by decide, c4_unavailability_amended exReq4 exAssign4 exFaculty4 ⟨"Mon", 1⟩
    (toEvent exReq4 exKey4b) (by decide) (by decide) (by decide) (by decide)⟩

/-- C5 (code bug): `add_faculty_load_balance` penalizes by *list position*
(`day_vars[3:]` in dict order), not by true-class count: in `exReq5` the
solution `exAssign5` schedules exactly one class for faculty `f1` on Mon
(at most 3 true classes, so the claim promises zero penalty from this
cluster), yet the realized penalty of the cluster is the full weight 5,
because the single true variable sits at position 3 of the candidate
list. -/
theorem c5_load_balance_positional_bug :
    exReq5.constraints.soft.faculty_load_balance.enabled = true ∧
    exReq5.constraints.soft.faculty_load_balance.weight = 5 ∧
    hardSat exReq5 exAssign5 = true ∧
    facultyDayTrueClasses exReq5 exAssign5 "f1" "Mon" = 1 ∧
    facultyLoadBalancePenalty exReq5 exAssign5 5 = 5 :=
  ⟨rfl, rfl, by decide, by decide, by decide⟩

/-- C6: in every solution satisfying the posted hard constraints, no two
distinct timetable events share a (batch, day, slot), a (room, day, slot),
or an (instructor, day, slot). -/
theorem c6_no_double_booking (req : SolverRequest) (σ : VarKey → Bool)
    (h : hardSat req σ = true) (e1 e2 : TimetableEvent)
    (h1 : e1 ∈ decodeEvents req σ) (h2 : e2 ∈ decodeEvents req σ)
    (hne : e1 ≠ e2) :
    ¬(e1.batch_id = e2.batch_id ∧ e1.day = e2.day ∧ e1.slot = e2.slot) ∧
    ¬(e1.room_id = e2.room_id ∧ e1.day = e2.day ∧ e1.slot = e2.slot) ∧
    ¬(e1.faculty_id = e2.faculty_id ∧ e1.day = e2.day ∧ e1.slot = e2.slot) := by
  obtain ⟨hbatchC, hroomC, hfacC, -, -, -, -⟩ := hardSat_parts h
  obtain ⟨k1, hk1, hσ1, he1⟩ := mem_decodeEvents h1
  obtain ⟨k2, hk2, hσ2, he2⟩ := mem_decodeEvents h2
  subst he1; subst he2
  have hkne : k1 ≠ k2 := fun hkeq => hne (by rw [hkeq])
  obtain ⟨b1, hb1, bs1, hbs1, subj1, hsub1, hsubid1, hkb1, hks1, hday1, hslot1,
    ⟨r1, hr1mem, hkr1, -, -⟩, ⟨f1, hf1mem, hkf1, -⟩⟩ := mem_varKeys_struct hk1
  refine ⟨?_, ?_, ?_⟩
  · rintro ⟨hb, hd, hs⟩
    have hb2 : k1.batch_id = k2.batch_id := hb
    have hd2 : k1.day = k2.day := hd
    have hs2 : k1.slot = k2.slot := hs
    rw [batchSlotSat, List.all_eq_true] at hbatchC
    have ha1 := hbatchC b1 hb1
    rw [List.all_eq_true] at ha1
    have ha2 := ha1 k1.day hday1
    rw [List.all_eq_true] at ha2
    have ha3 := ha2 k1.slot hslot1
    have hle : trueCount σ ((varKeys req).filter fun k =>
        k.batch_id == b1.id && k.day == k1.day && k.slot == k1.slot) ≤ 1 :=
      of_decide_eq_true ha3
    refine not_two_true hle ?_ ?_ hσ1 hσ2 hkne
    · exact List.mem_filter.mpr ⟨hk1, by simp [hkb1]⟩
    · exact List.mem_filter.mpr ⟨hk2, by simp [← hb2, ← hd2, ← hs2, hkb1]⟩
  · rintro ⟨hb, hd, hs⟩
    have hb2 : k1.room_id = k2.room_id := hb
    have hd2 : k1.day = k2.day := hd
    have hs2 : k1.slot = k2.slot := hs
    rw [roomSlotSat, List.all_eq_true] at hroomC
    have ha1 := hroomC r1 hr1mem
    rw [List.all_eq_true] at ha1
    have ha2 := ha1 k1.day hday1
    rw [List.all_eq_true] at ha2
    have ha3 := ha2 k1.slot hslot1
    have hle : trueCount σ ((varKeys req).filter fun k =>
        k.room_id == r1.id && k.day == k1.day && k.slot == k1.slot) ≤ 1 :=
      of_decide_eq_true ha3
    refine not_two_true hle ?_ ?_ hσ1 hσ2 hkne
    · exact List.mem_filter.mpr ⟨hk1, by simp [hkr1]⟩
    · exact List.mem_filter.mpr ⟨hk2, by simp [← hb2, ← hd2, ← hs2, hkr1]⟩
  · rintro ⟨hb, hd, hs⟩
    have hb2 : k1.faculty_id = k2.faculty_id := hb
    have hd2 : k1.day = k2.day := hd
    have hs2 : k1.slot = k2.slot := hs
    rw [facultySlotSat, List.all_eq_true] at hfacC
    have ha1 := hfacC f1 hf1mem
    rw [List.all_eq_true] at ha1
    have ha2 := ha1 k1.day hday1
    rw [List.all_eq_true] at ha2
    have ha3 := ha2 k1.slot hslot1
    have hle : trueCount σ ((varKeys req).filter fun k =>
        k.faculty_id == f1.id && k.day == k1.day && k.slot == k1.slot) ≤ 1 :=
      of_decide_eq_true ha3
    refine not_two_true hle ?_ ?_ hσ1 hσ2 hkne
    · exact List.mem_filter.mpr ⟨hk1, by simp [hkf1]⟩
    · exact List.mem_filter.mpr ⟨hk2, by simp [← hb2, ← hd2, ← hs2, hkf1]⟩

/-- C6 (witness): the exclusivity theorem applied to the two events of the
unique solution of `exReq6`. -/
theorem c6_no_double_booking_witness :
    hardSat exReq6 exAssign6 = true ∧
    (¬((toEvent exReq6 exKey6a).batch_id = (toEvent exReq6 exKey6b).batch_id ∧
        (toEvent exReq6 exKey6a).day = (toEvent exReq6 exKey6b).day ∧
        (toEvent exReq6 exKey6a).slot = (toEvent exReq6 exKey6b).slot) ∧
      ¬((toEvent exReq6 exKey6a).room_id = (toEvent exReq6 exKey6b).room_id ∧
        (toEvent exReq6 exKey6a).day = (toEvent exReq6 exKey6b).day ∧
        (toEvent exReq6 exKey6a).slot = (toEvent exReq6 exKey6b).slot) ∧
      ¬((toEvent exReq6 exKey6a).faculty_id = (toEvent exReq6 exKey6b).faculty_id ∧
        (toEvent exReq6 exKey6a).day = (toEvent exReq6 exKey6b).day ∧
        (toEvent exReq6 exKey6a).slot = (toEvent exReq6 exKey6b).slot)) :=
  ⟨by decide,
    c6_no_double_booking exReq6 exAssign6 (by decide)
      (toEvent exReq6 exKey6a) (toEvent exReq6 exKey6b)
      (by decide) (by decide) (by decide)⟩

/-- C7: when variable creation produces zero decision variables, `solve`
returns the ERROR response with the human-readable empty-model message, and
the result does not depend on the backend phase — the backend is never
consulted. -/
theorem c7_empty_model_error (req : SolverRequest) (ph : PhaseOutcomes)
    (backendOutcome : Except String BackendResult)
    (hidx : ph.buildIndexes = Except.ok ())
    (hvars : ph.createVars = Except.ok ())
    (hempty : varKeys req = []) :
    solve req ph = { status := SolverStatus.error
                     message := "No valid class assignments possible"
                     solutions := [] } ∧
    solve req { ph with backend := backendOutcome } = solve req ph := by
  have hbody : ∀ (ph2 : PhaseOutcomes), ph2.buildIndexes = Except.ok () →
      ph2.createVars = Except.ok () →
      solve req ph2 = { status := SolverStatus.error
                        message := "No valid class assignments possible"
                        solutions := [] } := by
    intro ph2 hi2 hv2
    unfold solve solveBody
    rw [hi2, hv2, hempty]
    rfl
  have hone := hbody ph hidx hvars
  have htwo := hbody { ph with backend := backendOutcome } hidx hvars
  exact ⟨hone, htwo.trans hone.symm⟩

/-- C7 (witness): Scenario A — batch of size 30, single room of capacity 25:
no variable is created and `solve` reports the empty-model error even when
the backend phase would crash. -/
theorem c7_empty_model_witness :
    exPhOk.buildIndexes = Except.ok () ∧ exPhOk.createVars = Except.ok () ∧
    varKeys exReq7 = [] ∧
    (solve exReq7 exPhOk
        = { status := SolverStatus.error
            message := "No valid class assignments possible"
            solutions := [] } ∧
      solve exReq7 { exPhOk with backend := Except.error "backend crash" }
        = solve exReq7 exPhOk) :=
  ⟨rfl, rfl, by decide,
    c7_empty_model_error exReq7 exPhOk (Except.error "backend crash") rfl rfl
      (by decide)⟩

/-- C8: the `try/except` boundary of `solve` converts any exception raised
by a phase of the body (index building, variable creation, constraint
encoding, objective composition, solver configuration, backend invocation)
into an ERROR response carrying the exception message; `solve` itself is a
total function and never propagates the fault. -/
theorem c8_solve_boundary_error (req : SolverRequest) (ph : PhaseOutcomes)
    (e : String) (hfault : solveBody req ph = Except.error e) :
    solve req ph = { status := SolverStatus.error
                     message := "Solver error: " ++ e
                     solutions := [] } := by
  unfold solve
  rw [hfault]

/-- C8 (witness): the boundary theorem at a run whose backend invocation
raises. -/
theorem c8_solve_boundary_witness :
    solveBody exReqA exPhFault = Except.error "backend failure" ∧
    solve exReqA exPhFault
      = { status := SolverStatus.error
          message := "Solver error: backend failure"
          solutions := [] } :=
  ⟨rfl, c8_solve_boundary_error exReqA exPhFault "backend failure" rfl⟩

/-- C9: every decision variable in the candidate space is structurally
valid by construction: it belongs to some (batch, subject) requirement of
the request, its room has capacity at least the batch size and is a lab
room whenever the subject is a lab subject, and its faculty is either the
requirement's pinned faculty or one whose teachable-subject set contains
the subject. -/
theorem c9_candidate_space_sparse (req : SolverRequest) (k : VarKey)
    (hk : k ∈ varKeys req) :
    ∃ batch ∈ req.batches, ∃ bs ∈ batch.subjects, ∃ subject,
      getSubject req bs.subject_id = some subject ∧
      k.batch_id = batch.id ∧ k.subject_id = subject.id ∧
      (∃ room ∈ req.rooms, k.room_id = room.id ∧ batch.size ≤ room.capacity ∧
        (subject.is_lab = true → room.type = "lab")) ∧
      (∃ faculty ∈ req.faculties, k.faculty_id = faculty.id ∧
        ((∃ aid, bs.assigned_faculty_id = some aid ∧ k.faculty_id = aid) ∨
         (bs.assigned_faculty_id = none ∧ subject.id ∈ faculty.subject_ids))) := by
  obtain ⟨batch, hbatch, bs, hbs, subject, hsub, hsubid, hkb, hks, -, -, hroom, hfac⟩ :=
    mem_varKeys_struct hk
  obtain ⟨faculty, hfmem, hkf, hfcase⟩ := hfac
  refine ⟨batch, hbatch, bs, hbs, subject, hsub, hkb, hks, hroom, faculty, hfmem, hkf, ?_⟩
  rcases hfcase with hpin | hteach
  · exact Or.inl ⟨faculty.id, hpin, hkf⟩
  · exact Or.inr hteach

/-- C9 (witness): the sparseness theorem at the slot-1 key of `exReqA`. -/
theorem c9_candidate_space_witness :
    exKeyA ∈ varKeys exReqA ∧
    (∃ batch ∈ exReqA.batches, ∃ bs ∈ batch.subjects, ∃ subject,
      getSubject exReqA bs.subject_id = some subject ∧
      exKeyA.batch_id = batch.id ∧ exKeyA.subject_id = subject.id ∧
      (∃ room ∈ exReqA.rooms, exKeyA.room_id = room.id ∧
        batch.size ≤ room.capacity ∧
        (subject.is_lab = true → room.type = "lab")) ∧
      (∃ faculty ∈ exReqA.faculties, exKeyA.faculty_id = faculty.id ∧
        ((∃ aid, bs.assigned_faculty_id = some aid ∧ exKeyA.faculty_id = aid) ∨
         (bs.assigned_faculty_id = none ∧ subject.id ∈ faculty.subject_ids)))) :=
  ⟨by decide, c9_candidate_space_sparse exReqA exKeyA (by decide)⟩

/-- C10: every solution carried by a response of `solve` (which happens only
for backend status OPTIMAL or FEASIBLE) reports `violations["hard"] = 0`
unconditionally and the all-default `TimetableMetrics` (every metric field
zero), regardless of the decoded events. -/
theorem c10_constant_metrics (req : SolverRequest) (ph : PhaseOutcomes)
    (sol : TimetableSolution) (hsol : sol ∈ (solve req ph).solutions) :
    sol.violations_hard = 0 ∧ sol.metrics = defaultMetrics ∧
    sol.metrics.faculty_load_variance = 0 ∧
    sol.metrics.room_utilization_percent = 0 ∧
    sol.metrics.avg_daily_classes_per_batch = 0 ∧
    sol.metrics.faculty_idle_gaps = 0 ∧
    sol.metrics.classes_in_preferred_slots = 0 := by
  unfold solve at hsol
  cases hbody : solveBody req ph with
  | error e =>
      rw [hbody] at hsol
      simp at hsol
  | ok r =>
      rw [hbody] at hsol
      rcases solveBody_solutions hbody with hempty | ⟨σ, obj, -, hsols⟩
      · rw [hempty] at hsol
        cases hsol
      · rw [hsols] at hsol
        rw [List.mem_singleton] at hsol
        subst hsol
        exact ⟨rfl, rfl, rfl, rfl, rfl, rfl, rfl⟩

/-- C10 (witness): the metrics theorem at an OPTIMAL run of `exReqA`. -/
theorem c10_constant_metrics_witness :
    extractSolution exReqA exAssignA 0 ∈ (solve exReqA exPhOpt).solutions ∧
    ((extractSolution exReqA exAssignA 0).violations_hard = 0 ∧
      (extractSolution exReqA exAssignA 0).metrics = defaultMetrics ∧
      (extractSolution exReqA exAssignA 0).metrics.faculty_load_variance = 0 ∧
      (extractSolution exReqA exAssignA 0).metrics.room_utilization_percent = 0 ∧
      (extractSolution exReqA exAssignA 0).metrics.avg_daily_classes_per_batch = 0 ∧
      (extractSolution exReqA exAssignA 0).metrics.faculty_idle_gaps = 0 ∧
      (extractSolution exReqA exAssignA 0).metrics.classes_in_preferred_slots = 0) :=
  ⟨by decide,
    c10_constant_metrics exReqA exPhOpt (extractSolution exReqA exAssignA 0)
      (by decide)⟩

end TimeTuner
